import Mathlib

/-!
Shallow embedding of `src/ui/lib/apps/Statement/utils/useStatementTableController.ts`
(tidb-dashboard statement-table controller hook).

The hook's React state is modelled as an explicit record (`ControllerState`).
Each remote call is a suspension point whose result we model as an explicit
outcome parameter: `Except Err (Option payload)` — `Except.error` for a thrown
error, `Except.ok none` for a resolved response with an absent payload
(`res?.data` being `undefined`), `Except.ok (some v)` for a present payload.
Each `async` handler in the source becomes a pure state-transition function of
the pre-state and the outcome; JavaScript quirks (`res?.data || []` defaulting,
`if (token)` truthiness of strings) are translated explicitly.
-/

namespace StatementTableController

/-- Errors are opaque at this layer (the code only appends caught values to a
list); we model them as strings. -/
abbrev Err := String

/-- A concrete server-known time window (`StatementTimeRange` from the client
API): optional numeric `begin_time` / `end_time` fields. -/
structure StatementTimeRange where
  begin_time : Option Int
  end_time : Option Int
deriving DecidableEq, Repr

/-- A statement row is opaque to the controller logic under verification. -/
abbrev StatementModel := String

/-- Modelled from the spec: `TimeRange` is defined in
`../pages/List/TimeRangeSelector`, which is not part of the provided source.
The spec describes it as "abstract user intent for a time window (e.g., 'last
N seconds' or explicit begin/end)". -/
inductive TimeRange where
  | recent (seconds : Nat)
  | absolute (begin_time end_time : Int)
deriving DecidableEq, Repr

/-- Modelled from the spec: `DEFAULT_TIME_RANGE` comes from the missing
`TimeRangeSelector` module; the claims under verification never depend on its
value, only on it being a fixed `TimeRange`. -/
def DEFAULT_TIME_RANGE : TimeRange := TimeRange.recent 1800

/-- `IStatementQueryOptions` from the source. -/
structure IStatementQueryOptions where
  timeRange : TimeRange
  schemas : List String
  stmtTypes : List String
  searchText : String
deriving DecidableEq, Repr

/-- `DEF_STMT_QUERY_OPTIONS` from the source. -/
def DEF_STMT_QUERY_OPTIONS : IStatementQueryOptions :=
  { timeRange := DEFAULT_TIME_RANGE
    schemas := []
    stmtTypes := []
    searchText := "" }

/-- The session-storage key constant `QUERY_OPTIONS` from the source. -/
def QUERY_OPTIONS : String := "statement.query_options"

/-- The React `useState` pieces of the controller.  `enable` is a TS `boolean`
that the success handler can set to `undefined` (via `res?.data.enable!`), so
it is an `Option Bool` here; its initializer is `useState(true)`. -/
structure ControllerState where
  enable : Option Bool
  allTimeRanges : List StatementTimeRange
  allSchemas : List String
  allStmtTypes : List String
  loadingStatements : Bool
  statements : List StatementModel
  refreshTimes : Nat
  errors : List Err
  downloading : Bool
deriving DecidableEq, Repr

/-- Initial values of the `useState` hooks, in source order:
`useState(true)`, `useState<StatementTimeRange[]>([])`, `useState<string[]>([])`,
`useState<string[]>([])`, `useState(true)` (loading), `useState<StatementModel[]>([])`,
`useState(0)` (refreshTimes), `useState<any[]>([])` (errors), `useState(false)`. -/
def initialControllerState : ControllerState :=
  { enable := some true
    allTimeRanges := []
    allSchemas := []
    allStmtTypes := []
    loadingStatements := true
    statements := []
    refreshTimes := 0
    errors := []
    downloading := false }

/-- Outcome of a single remote call whose resolved value may carry an absent
payload. -/
abbrev FetchResult (α : Type) := Except Err (Option α)

/-- The error contributed by one fetch outcome: the singleton of the caught
error on the failure path, nothing on the success path. -/
def errOf {α : Type} : Except Err α → List Err
  | Except.error e => [e]
  | Except.ok _ => []

/-- `queryStatementStatus`: on success `setEnable(res?.data.enable!)` (the
payload is the `enable` field of the config, itself optional, so the stored
value is the join); on failure `setErrors((prev) => prev.concat(e))`. -/
def queryStatementStatus (s : ControllerState)
    (r : FetchResult (Option Bool)) : ControllerState :=
  match r with
  | Except.ok res => { s with enable := res.join }
  | Except.error e => { s with errors := s.errors ++ [e] }

/-- `querySchemas`: on success `setAllSchemas(res?.data || [])`; on failure
append the error. -/
def querySchemas (s : ControllerState)
    (r : FetchResult (List String)) : ControllerState :=
  match r with
  | Except.ok res => { s with allSchemas := res.getD [] }
  | Except.error e => { s with errors := s.errors ++ [e] }

/-- `queryTimeRanges`: on success `setAllTimeRanges(res?.data || [])`; on
failure append the error. -/
def queryTimeRanges (s : ControllerState)
    (r : FetchResult (List StatementTimeRange)) : ControllerState :=
  match r with
  | Except.ok res => { s with allTimeRanges := res.getD [] }
  | Except.error e => { s with errors := s.errors ++ [e] }

/-- `queryStmtTypes`: on success `setAllStmtTypes(res?.data || [])`; on
failure append the error. -/
def queryStmtTypes (s : ControllerState)
    (r : FetchResult (List String)) : ControllerState :=
  match r with
  | Except.ok res => { s with allStmtTypes := res.getD [] }
  | Except.error e => { s with errors := s.errors ++ [e] }

/-- The outcomes of the four independent metadata fetches launched by the
metadata-loading effect. -/
structure MetadataOutcomes where
  config : FetchResult (Option Bool)
  schemas : FetchResult (List String)
  timeRanges : FetchResult (List StatementTimeRange)
  stmtTypes : FetchResult (List String)
deriving Repr

/-- One complete run of the metadata-loading `useEffect`: the four handlers
applied in their launch order (`queryStatementStatus(); querySchemas();
queryTimeRanges(); queryStmtTypes()`).  Each handler touches only its own
metadata field plus the shared error list, so the launch order only fixes the
order of error appends. -/
def runMetadataEffect (s : ControllerState) (o : MetadataOutcomes) : ControllerState :=
  queryStmtTypes
    (queryTimeRanges
      (querySchemas
        (queryStatementStatus s o.config) o.schemas) o.timeRanges) o.stmtTypes

/-- The parameters of a `statementsListGet` call, in source order. -/
structure StmtListRequest where
  begin_time : Option Int
  end_time : Option Int
  fields : String
  schemas : List String
  stmtTypes : List String
  searchText : String
deriving DecidableEq, Repr

/-- `queryStatementList` from the statement-list-loading effect: if
`allTimeRanges.length === 0` set `statements` to `[]`, `loadingStatements` to
`false` and return (no request); otherwise set loading, issue the request
built from `validTimeRange`, `selectedFields` and the filters, then on success
replace `statements` with `res?.data || []` and reset `errors` to `[]`, on
failure append the error, and finally clear the loading flag.  Returns the new
state paired with the issued request, `none` when no fetch was issued. -/
def queryStatementList (s : ControllerState) (queryOptions : IStatementQueryOptions)
    (validTimeRange : StatementTimeRange) (selectedFields : String)
    (outcome : FetchResult (List StatementModel)) :
    ControllerState × Option StmtListRequest :=
  if s.allTimeRanges.length = 0 then
    ({ s with statements := [], loadingStatements := false }, none)
  else
    let req : StmtListRequest :=
      { begin_time := validTimeRange.begin_time
        end_time := validTimeRange.end_time
        fields := selectedFields
        schemas := queryOptions.schemas
        stmtTypes := queryOptions.stmtTypes
        searchText := queryOptions.searchText }
    let s1 := { s with loadingStatements := true }
    let s2 :=
      match outcome with
      | Except.ok res => { s1 with statements := res.getD [], errors := [] }
      | Except.error e => { s1 with errors := s1.errors ++ [e] }
    ({ s2 with loadingStatements := false }, some req)

/-- `refresh`: `setErrors([])` then `setRefreshTimes((prev) => prev + 1)`,
both synchronous state updates. -/
def refresh (s : ControllerState) : ControllerState :=
  { s with errors := [], refreshTimes := s.refreshTimes + 1 }

/-- The dependency array of the metadata-loading `useEffect` is
`[refreshTimes]`: this is the value React compares to decide whether the
effect re-runs. -/
def metadataEffectDeps (s : ControllerState) : Nat :=
  s.refreshTimes

/-- The controller's full mutable environment: the React state plus the two
query-option backing stores (`useState` slot and the session-storage slot
keyed by `QUERY_OPTIONS`, absent when the key was never written). -/
structure FullState where
  core : ControllerState
  memoryQueryOptions : IStatementQueryOptions
  sessionStore : Option IStatementQueryOptions
deriving DecidableEq, Repr

/-- `setQueryOptions`: with `needSave` write the session-storage slot,
otherwise the in-memory `useState` slot. -/
def setQueryOptions (needSave : Bool) (s : FullState)
    (newOptions : IStatementQueryOptions) : FullState :=
  if needSave then { s with sessionStore := some newOptions }
  else { s with memoryQueryOptions := newOptions }

/-- `refresh` lifted to the full environment (it only touches the React
state). -/
def refreshFull (s : FullState) : FullState :=
  { s with core := refresh s.core }

/-- The `queryOptions` value observed by a freshly constructed controller:
`useSessionStorageState(QUERY_OPTIONS, options || DEF_STMT_QUERY_OPTIONS)`
yields the stored value when the key is present, else the default
`options || DEF_STMT_QUERY_OPTIONS`; the memoized `queryOptions` selects the
session value when `needSave` and the memory value
(`useState(options || DEF_STMT_QUERY_OPTIONS)`) otherwise. -/
def initialQueryOptions (needSave : Bool) (store : Option IStatementQueryOptions)
    (options : Option IStatementQueryOptions) : IStatementQueryOptions :=
  if needSave then store.getD (options.getD DEF_STMT_QUERY_OPTIONS)
  else options.getD DEF_STMT_QUERY_OPTIONS

/-- The body of a `statementsDownloadTokenPost` call, in source order. -/
structure DownloadTokenRequest where
  begin_time : Option Int
  end_time : Option Int
  fields : String
  schemas : List String
  stmt_types : List String
  text : String
deriving DecidableEq, Repr

/-- JavaScript truthiness of `token : string | undefined`: `undefined` and the
empty string are falsy, every other string truthy. -/
def jsTruthyToken : Option String → Bool
  | none => false
  | some t => !t.isEmpty

/-- Result of one `downloadCSV()` call: the post-state, the promise outcome
(`Except.error` when the token request threw and the error propagated to the
caller), the URL the browser was navigated to (if any), and the token request
that was issued. -/
structure DownloadResult where
  state : ControllerState
  outcome : Except Err Unit
  navigatedTo : Option String
  request : DownloadTokenRequest
deriving Repr

/-- `downloadCSV`: set `downloading` to `true`, request a download token with
the effective time range, `fields: '*'` and the current filters; if the
resolved `res.data` token is truthy, navigate to
`{basePath}/statements/download?token={token}`; the `finally` block resets
`downloading` to `false` on every path, and a thrown error propagates
unhandled. -/
def downloadCSV (s : ControllerState) (queryOptions : IStatementQueryOptions)
    (validTimeRange : StatementTimeRange) (basePath : String)
    (tokenOutcome : FetchResult String) : DownloadResult :=
  let req : DownloadTokenRequest :=
    { begin_time := validTimeRange.begin_time
      end_time := validTimeRange.end_time
      fields := "*"
      schemas := queryOptions.schemas
      stmt_types := queryOptions.stmtTypes
      text := queryOptions.searchText }
  let s1 := { s with downloading := true }
  match tokenOutcome with
  | Except.error e =>
      { state := { s1 with downloading := false }
        outcome := Except.error e
        navigatedTo := none
        request := req }
  | Except.ok token =>
      let nav : Option String :=
        if jsTruthyToken token then
          some (basePath ++ "/statements/download?token=" ++ token.getD "")
        else none
      { state := { s1 with downloading := false }
        outcome := Except.ok ()
        navigatedTo := nav
        request := req }

/-- A state in which the metadata fetches have delivered one known time
range; used as a concrete instantiation point. -/
def sampleState : ControllerState :=
  { initialControllerState with
    allTimeRanges := [{ begin_time := some 0, end_time := some 10 }] }

/-! ## Helper lemmas about one run of the metadata-loading effect -/

theorem runMetadataEffect_enable (s : ControllerState) (o : MetadataOutcomes) :
    (runMetadataEffect s o).enable =
      match o.config with
      | Except.ok r => r.join
      | Except.error _ => s.enable := by
  obtain ⟨c, sc, t, st⟩ := o
  cases c <;> cases sc <;> cases t <;> cases st <;>
    simp [runMetadataEffect, queryStatementStatus, querySchemas, queryTimeRanges,
      queryStmtTypes]

theorem runMetadataEffect_allSchemas (s : ControllerState) (o : MetadataOutcomes) :
    (runMetadataEffect s o).allSchemas =
      match o.schemas with
      | Except.ok r => r.getD []
      | Except.error _ => s.allSchemas := by
  obtain ⟨c, sc, t, st⟩ := o
  cases c <;> cases sc <;> cases t <;> cases st <;>
    simp [runMetadataEffect, queryStatementStatus, querySchemas, queryTimeRanges,
      queryStmtTypes]

theorem runMetadataEffect_allTimeRanges (s : ControllerState) (o : MetadataOutcomes) :
    (runMetadataEffect s o).allTimeRanges =
      match o.timeRanges with
      | Except.ok r => r.getD []
      | Except.error _ => s.allTimeRanges := by
  obtain ⟨c, sc, t, st⟩ := o
  cases c <;> cases sc <;> cases t <;> cases st <;>
    simp [runMetadataEffect, queryStatementStatus, querySchemas, queryTimeRanges,
      queryStmtTypes]

theorem runMetadataEffect_allStmtTypes (s : ControllerState) (o : MetadataOutcomes) :
    (runMetadataEffect s o).allStmtTypes =
      match o.stmtTypes with
      | Except.ok r => r.getD []
      | Except.error _ => s.allStmtTypes := by
  obtain ⟨c, sc, t, st⟩ := o
  cases c <;> cases sc <;> cases t <;> cases st <;>
    simp [runMetadataEffect, queryStatementStatus, querySchemas, queryTimeRanges,
      queryStmtTypes]

theorem runMetadataEffect_errors (s : ControllerState) (o : MetadataOutcomes) :
    (runMetadataEffect s o).errors =
      s.errors ++ errOf o.config ++ errOf o.schemas ++ errOf o.timeRanges
        ++ errOf o.stmtTypes := by
  obtain ⟨c, sc, t, st⟩ := o
  cases c <;> cases sc <;> cases t <;> cases st <;>
    simp [runMetadataEffect, queryStatementStatus, querySchemas, queryTimeRanges,
      queryStmtTypes, errOf]

theorem runMetadataEffect_refreshTimes (s : ControllerState) (o : MetadataOutcomes) :
    (runMetadataEffect s o).refreshTimes = s.refreshTimes := by
  obtain ⟨c, sc, t, st⟩ := o
  cases c <;> cases sc <;> cases t <;> cases st <;>
    simp [runMetadataEffect, queryStatementStatus, querySchemas, queryTimeRanges,
      queryStmtTypes]

/-! ## Claim theorems -/

/-- C1: whenever `allTimeRanges` is empty, `queryStatementList` sets
`statements` to the empty list and `loadingStatements` to `false`, issues no
remote statement-list request, and leaves the error list unchanged. -/
theorem C1_empty_time_ranges_short_circuit (s : ControllerState)
    (qo : IStatementQueryOptions) (vtr : StatementTimeRange) (sf : String)
    (outcome : FetchResult (List StatementModel))
    (h : s.allTimeRanges = []) :
    (queryStatementList s qo vtr sf outcome).1.statements = [] ∧
    (queryStatementList s qo vtr sf outcome).1.loadingStatements = false ∧
    (queryStatementList s qo vtr sf outcome).2 = none ∧
    (queryStatementList s qo vtr sf outcome).1.errors = s.errors := by
  simp [queryStatementList, h]

/-- Witness for C1 at the freshly constructed controller state (whose
`allTimeRanges` is empty) with an arbitrary would-be outcome. -/
theorem C1_empty_time_ranges_short_circuit_witness :
    (queryStatementList initialControllerState DEF_STMT_QUERY_OPTIONS
        { begin_time := none, end_time := none } "" (Except.ok none)).1.statements = [] ∧
    (queryStatementList initialControllerState DEF_STMT_QUERY_OPTIONS
        { begin_time := none, end_time := none } "" (Except.ok none)).1.loadingStatements = false ∧
    (queryStatementList initialControllerState DEF_STMT_QUERY_OPTIONS
        { begin_time := none, end_time := none } "" (Except.ok none)).2 = none ∧
    (queryStatementList initialControllerState DEF_STMT_QUERY_OPTIONS
        { begin_time := none, end_time := none } "" (Except.ok none)).1.errors
      = initialControllerState.errors :=
  C1_empty_time_ranges_short_circuit initialControllerState DEF_STMT_QUERY_OPTIONS
    { begin_time := none, end_time := none } "" (Except.ok none) rfl

/-- C2: when a statement-list fetch actually runs (`allTimeRanges` nonempty),
success replaces `statements` wholesale with the payload (empty if absent) and
resets the error list to empty, while failure appends the thrown error to the
existing error list and leaves `statements` at its previous value. -/
theorem C2_list_fetch_success_failure (s : ControllerState)
    (qo : IStatementQueryOptions) (vtr : StatementTimeRange) (sf : String)
    (h : s.allTimeRanges ≠ []) :
    (∀ res : Option (List StatementModel),
      (queryStatementList s qo vtr sf (Except.ok res)).1.statements = res.getD [] ∧
      (queryStatementList s qo vtr sf (Except.ok res)).1.errors = []) ∧
    (∀ e : Err,
      (queryStatementList s qo vtr sf (Except.error e)).1.statements = s.statements ∧
      (queryStatementList s qo vtr sf (Except.error e)).1.errors = s.errors ++ [e]) := by
  have hlen : ¬ s.allTimeRanges.length = 0 := by
    simpa [List.length_eq_zero] using h
  exact ⟨fun res => by simp [queryStatementList, hlen],
         fun e => by simp [queryStatementList, hlen]⟩

/-- Witness for C2 at a state with one known time range: a successful fetch
carrying one row, and a failing fetch carrying error `"boom"`. -/
theorem C2_list_fetch_success_failure_witness :
    (queryStatementList sampleState DEF_STMT_QUERY_OPTIONS
        { begin_time := some 0, end_time := some 10 } "digest"
        (Except.ok (some ["row1"]))).1.statements = (some ["row1"]).getD [] ∧
    (queryStatementList sampleState DEF_STMT_QUERY_OPTIONS
        { begin_time := some 0, end_time := some 10 } "digest"
        (Except.error "boom")).1.errors = sampleState.errors ++ ["boom"] :=
  ⟨((C2_list_fetch_success_failure sampleState DEF_STMT_QUERY_OPTIONS
      { begin_time := some 0, end_time := some 10 } "digest"
      (by simp [sampleState, initialControllerState])).1 (some ["row1"])).1,
   ((C2_list_fetch_success_failure sampleState DEF_STMT_QUERY_OPTIONS
      { begin_time := some 0, end_time := some 10 } "digest"
      (by simp [sampleState, initialControllerState])).2 "boom").2⟩

/-- C7: every run of `queryStatementList` ends with `loadingStatements =
false`, on the success path, the failure path, and the empty-time-ranges
short-circuit path alike. -/
theorem C7_loading_false_on_completion (s : ControllerState)
    (qo : IStatementQueryOptions) (vtr : StatementTimeRange) (sf : String)
    (outcome : FetchResult (List StatementModel)) :
    (queryStatementList s qo vtr sf outcome).1.loadingStatements = false := by
  by_cases h : s.allTimeRanges.length = 0 <;> cases outcome <;>
    simp [queryStatementList, h]

/-- C3 counterexample: the claim says that at controller construction the
enable flag is false/unset, but the source initializes it with
`useState(true)`: the initial `enable` is `some true`, neither `false` nor
unset. -/
theorem C3_initial_enable_counterexample :
    ¬ (initialControllerState.enable = some false ∨
       initialControllerState.enable = none) := by
  decide

/-- C3 (amended): at controller construction `allSchemas`, `allTimeRanges`
and `allStmtTypes` are empty lists and the enable flag is initialized to
`true` (not false/unset); each metadata field is only ever replaced wholesale
by a successful fetch of its own source — a metadata-effect run determines
each field solely from that field's own outcome, and neither the
statement-list loader, `refresh`, nor `downloadCSV` touches any of them. -/
theorem C3_initial_metadata_and_wholesale_replacement (s : ControllerState)
    (o : MetadataOutcomes) (qo : IStatementQueryOptions)
    (vtr : StatementTimeRange) (sf : String)
    (outcome : FetchResult (List StatementModel)) (bp : String)
    (tok : FetchResult String) :
    initialControllerState.allSchemas = [] ∧
    initialControllerState.allTimeRanges = [] ∧
    initialControllerState.allStmtTypes = [] ∧
    initialControllerState.enable = some true ∧
    (runMetadataEffect s o).enable =
      (match o.config with
       | Except.ok r => r.join
       | Except.error _ => s.enable) ∧
    (runMetadataEffect s o).allSchemas =
      (match o.schemas with
       | Except.ok r => r.getD []
       | Except.error _ => s.allSchemas) ∧
    (runMetadataEffect s o).allTimeRanges =
      (match o.timeRanges with
       | Except.ok r => r.getD []
       | Except.error _ => s.allTimeRanges) ∧
    (runMetadataEffect s o).allStmtTypes =
      (match o.stmtTypes with
       | Except.ok r => r.getD []
       | Except.error _ => s.allStmtTypes) ∧
    (queryStatementList s qo vtr sf outcome).1.enable = s.enable ∧
    (queryStatementList s qo vtr sf outcome).1.allSchemas = s.allSchemas ∧
    (queryStatementList s qo vtr sf outcome).1.allTimeRanges = s.allTimeRanges ∧
    (queryStatementList s qo vtr sf outcome).1.allStmtTypes = s.allStmtTypes ∧
    (refresh s).enable = s.enable ∧
    (refresh s).allSchemas = s.allSchemas ∧
    (refresh s).allTimeRanges = s.allTimeRanges ∧
    (refresh s).allStmtTypes = s.allStmtTypes ∧
    (downloadCSV s qo vtr bp tok).state.enable = s.enable ∧
    (downloadCSV s qo vtr bp tok).state.allSchemas = s.allSchemas ∧
    (downloadCSV s qo vtr bp tok).state.allTimeRanges = s.allTimeRanges ∧
    (downloadCSV s qo vtr bp tok).state.allStmtTypes = s.allStmtTypes := by
  refine ⟨rfl, rfl, rfl, rfl,
    runMetadataEffect_enable s o, runMetadataEffect_allSchemas s o,
    runMetadataEffect_allTimeRanges s o, runMetadataEffect_allStmtTypes s o,
    ?_, ?_, ?_, ?_, rfl, rfl, rfl, rfl, ?_, ?_, ?_, ?_⟩ <;>
  · first
    | (by_cases h : s.allTimeRanges.length = 0 <;> cases outcome <;>
        simp [queryStatementList, h])
    | (cases tok <;> simp [downloadCSV])

/-- C4: the metadata-loading effect's dependency array is the refresh counter
alone: `refresh` increments it by exactly one (so the effect re-runs once per
`refresh()` call, after its run at creation), `setQueryOptions` leaves the
whole React state — hence the dependency — untouched, and no other operation
(metadata-effect run, statement-list run, `downloadCSV`) changes the
counter. -/
theorem C4_refresh_counter_sole_dependency (fs : FullState) (needSave : Bool)
    (x : IStatementQueryOptions) (s : ControllerState) (o : MetadataOutcomes)
    (qo : IStatementQueryOptions) (vtr : StatementTimeRange) (sf : String)
    (outcome : FetchResult (List StatementModel)) (bp : String)
    (tok : FetchResult String) :
    metadataEffectDeps (refreshFull fs).core = metadataEffectDeps fs.core + 1 ∧
    (setQueryOptions needSave fs x).core = fs.core ∧
    metadataEffectDeps (runMetadataEffect s o) = metadataEffectDeps s ∧
    metadataEffectDeps (queryStatementList s qo vtr sf outcome).1 =
      metadataEffectDeps s ∧
    metadataEffectDeps (downloadCSV s qo vtr bp tok).state =
      metadataEffectDeps s := by
  refine ⟨rfl, ?_, runMetadataEffect_refreshTimes s o, ?_, ?_⟩
  · cases needSave <;> simp [setQueryOptions]
  · by_cases h : s.allTimeRanges.length = 0 <;> cases outcome <;>
      simp [metadataEffectDeps, queryStatementList, h]
  · cases tok <;> simp [metadataEffectDeps, downloadCSV]

/-- C5: `refresh()` resets the error list to empty synchronously, so any
metadata-effect run it triggers starts from an empty error list and can only
contribute the errors of its own four outcomes. -/
theorem C5_refresh_clears_errors (s : ControllerState) (o : MetadataOutcomes) :
    (refresh s).errors = [] ∧
    (runMetadataEffect (refresh s) o).errors =
      errOf o.config ++ errOf o.schemas ++ errOf o.timeRanges
        ++ errOf o.stmtTypes := by
  refine ⟨rfl, ?_⟩
  have h := runMetadataEffect_errors (refresh s) o
  simpa [refresh] using h

/-- C6: in one metadata-effect run, each of the four metadata fields is
determined solely by its own fetch outcome — a failure leaves that field at
its previous value and cannot alter any other field's outcome — and the error
list afterwards is exactly the previous list extended by the error of every
failed fetch. -/
theorem C6_metadata_failures_isolated (s : ControllerState)
    (o : MetadataOutcomes) :
    (runMetadataEffect s o).enable =
      (match o.config with
       | Except.ok r => r.join
       | Except.error _ => s.enable) ∧
    (runMetadataEffect s o).allSchemas =
      (match o.schemas with
       | Except.ok r => r.getD []
       | Except.error _ => s.allSchemas) ∧
    (runMetadataEffect s o).allTimeRanges =
      (match o.timeRanges with
       | Except.ok r => r.getD []
       | Except.error _ => s.allTimeRanges) ∧
    (runMetadataEffect s o).allStmtTypes =
      (match o.stmtTypes with
       | Except.ok r => r.getD []
       | Except.error _ => s.allStmtTypes) ∧
    (runMetadataEffect s o).errors =
      s.errors ++ errOf o.config ++ errOf o.schemas ++ errOf o.timeRanges
        ++ errOf o.stmtTypes :=
  ⟨runMetadataEffect_enable s o, runMetadataEffect_allSchemas s o,
   runMetadataEffect_allTimeRanges s o, runMetadataEffect_allStmtTypes s o,
   runMetadataEffect_errors s o⟩

/-- C8: every `downloadCSV()` call ends with `downloading = false` (its
`finally` block), never touches the shared error list, and when the token
request fails the error propagates to the caller as the call's outcome. -/
theorem C8_download_cleanup_and_propagation (s : ControllerState)
    (qo : IStatementQueryOptions) (vtr : StatementTimeRange) (bp : String)
    (tok : FetchResult String) :
    (downloadCSV s qo vtr bp tok).state.downloading = false ∧
    (downloadCSV s qo vtr bp tok).state.errors = s.errors ∧
    (∀ e : Err, tok = Except.error e →
      (downloadCSV s qo vtr bp tok).outcome = Except.error e) := by
  cases tok <;> simp [downloadCSV]

/-- Witness for C8 at a failing token request with error `"denied"`. -/
theorem C8_download_cleanup_and_propagation_witness :
    (downloadCSV sampleState DEF_STMT_QUERY_OPTIONS
        { begin_time := some 0, end_time := some 10 } "/dashboard/api"
        (Except.error "denied")).state.downloading = false ∧
    (downloadCSV sampleState DEF_STMT_QUERY_OPTIONS
        { begin_time := some 0, end_time := some 10 } "/dashboard/api"
        (Except.error "denied")).state.errors = sampleState.errors ∧
    (downloadCSV sampleState DEF_STMT_QUERY_OPTIONS
        { begin_time := some 0, end_time := some 10 } "/dashboard/api"
        (Except.error "denied")).outcome = Except.error "denied" := by
  have h := C8_download_cleanup_and_propagation sampleState DEF_STMT_QUERY_OPTIONS
    { begin_time := some 0, end_time := some 10 } "/dashboard/api"
    (Except.error "denied")
  exact ⟨h.1, h.2.1, h.2.2 "denied" rfl⟩

/-- C9: with session persistence enabled, `setQueryOptions x` writes `x` to
the session-storage slot under the fixed key, and a new controller
constructed in persisted mode from that slot observes `queryOptions = x`,
whatever default options it is given. -/
theorem C9_persisted_round_trip (fs : FullState) (x : IStatementQueryOptions)
    (options : Option IStatementQueryOptions) :
    initialQueryOptions true (setQueryOptions true fs x).sessionStore options
      = x := by
  simp [initialQueryOptions, setQueryOptions]

/-- C10: when the token request resolves but the token is absent or empty
(both falsy in JavaScript), `downloadCSV` performs no navigation, leaves the
error list unchanged, completes with a successful outcome, and ends with
`downloading = false`. -/
theorem C10_falsy_token_no_navigation (s : ControllerState)
    (qo : IStatementQueryOptions) (vtr : StatementTimeRange) (bp : String)
    (token : Option String) (h : jsTruthyToken token = false) :
    (downloadCSV s qo vtr bp (Except.ok token)).navigatedTo = none ∧
    (downloadCSV s qo vtr bp (Except.ok token)).state.errors = s.errors ∧
    (downloadCSV s qo vtr bp (Except.ok token)).state.downloading = false ∧
    (downloadCSV s qo vtr bp (Except.ok token)).outcome = Except.ok () := by
  simp [downloadCSV, h]

/-- Witness for C10 at the empty-string token (falsy in JavaScript). -/
theorem C10_falsy_token_no_navigation_witness :
    jsTruthyToken (some "") = false ∧
    (downloadCSV sampleState DEF_STMT_QUERY_OPTIONS
        { begin_time := some 0, end_time := some 10 } "/dashboard/api"
        (Except.ok (some ""))).navigatedTo = none ∧
    (downloadCSV sampleState DEF_STMT_QUERY_OPTIONS
        { begin_time := some 0, end_time := some 10 } "/dashboard/api"
        (Except.ok (some ""))).state.downloading = false :=
  have h := C10_falsy_token_no_navigation sampleState DEF_STMT_QUERY_OPTIONS
    { begin_time := some 0, end_time := some 10 } "/dashboard/api"
    (some "") rfl
  ⟨rfl, h.1, h.2.2.1⟩

end StatementTableController
